import Mathlib

/-!
Verification of the PostManager request-mapping façade of the
hashnode-sdk repository (src/managers/posts/post.manager.ts).

The façade is embedded shallowly. JavaScript values are `JValue`;
property access follows JavaScript semantics (`undefined` for a missing
key, a TypeError when the base is `null` or `undefined`); the fixed
GraphQL documents are opaque constants; the external executor is an
arbitrary function from requests to either an error or a response
envelope. Each method of the façade performs a single `makeRequest`
call followed by a field extraction on the returned envelope, and the
embedding records the full list of requests handed to the executor as
well as the manager object after the call.
-/

/-- JavaScript values, covering both GraphQL variables objects and
response envelopes. -/
inductive JValue where
  | jnull
  | jundefined
  | jbool (b : Bool)
  | jnum (n : Int)
  | jstr (s : String)
  | jobj (fields : List (String × JValue))
  | jarr (elems : List JValue)
deriving Repr

/-- Key lookup in an object literal; the first binding wins. -/
def lookupField : List (String × JValue) → String → Option JValue
  | [], _ => none
  | (k, v) :: rest, f => if k = f then some v else lookupField rest f

/-- The JavaScript TypeError raised by reading a property of `null` or
`undefined`. -/
inductive AccessErr where
  | typeError (field : String)
deriving Repr, DecidableEq

/-- Semantics of the property read `base.field`: a missing key on an
object and any read on a primitive yield `undefined`; a read on `null`
or `undefined` throws a TypeError. -/
def JValue.access : JValue → String → Except AccessErr JValue
  | .jnull, f => .error (.typeError f)
  | .jundefined, f => .error (.typeError f)
  | .jobj fields, f =>
      match lookupField fields f with
      | some v => .ok v
      | none => .ok .jundefined
  | _, _ => .ok .jundefined

/-- The chained property read `base.f.g`. -/
def access2 (f g : String) (base : JValue) : Except AccessErr JValue :=
  match base.access f with
  | .error a => .error a
  | .ok x => x.access g

/-- Modelled from the spec: the fixed operation documents imported from
./post.queries, a file that is not among the sources; each document is
an opaque constant, distinct from all the others. -/
inductive GqlDocument where
  | GET_POST_QUERY
  | GET_POST_PUBLICATION_QUERY
  | GET_POST_COMMENTS
  | GET_POST_COMMENTERS
  | GET_POST_LIKERS
  | GET_DRAFT_POST_QUERY
  | GET_SCHEDULED_POST_QUERY
  | GET_FEED_POST
  | PUBLISH_POST_MUTATION
  | ADD_POST_TO_SERIES_MUTATION
  | UPDATE_POST_MUTATION
  | REMOVE_POST_MUTATION
  | LIKE_POST_MUTATION
  | LIKE_COMMENT_MUTATION
  | LIKE_REPLY_MUTATION
  | ADD_COMMENT_MUTATION
  | UPDATE_COMMENT_MUTATION
  | REMOVE_COMMENT_MUTATION
  | ADD_REPLY_MUTATION
  | UPDATE_REPLY_MUTATION
  | REMOVE_REPLY_MUTATION
deriving Repr, DecidableEq

/-- The triple handed to the executor: operation name, fixed document,
variables object. -/
structure GqlRequest where
  operationName : String
  document : GqlDocument
  gqlVariables : JValue
deriving Repr

/-- Modelled from the spec: the HashnodeSDKClient collaborator handed to
the constructor; its contents are irrelevant to the façade, so it is
kept opaque with a single identifying field. -/
structure HashnodeSDKClient where
  token : String
deriving Repr, DecidableEq

/-- The manager object: the constructor stores the client and the
manager name and nothing else. -/
structure PostManager where
  client : HashnodeSDKClient
  managerName : String
deriving Repr, DecidableEq

/-- The constructor body: `super(client, 'PostManager')`. -/
def PostManager.create (client : HashnodeSDKClient) : PostManager :=
  ⟨client, "PostManager"⟩

/-- How a method invocation can fail: the executor rejected with an
external error, or the local field extraction threw a TypeError. -/
inductive MethodError (E : Type) where
  | execFailure (e : E)
  | accessFailure (a : AccessErr)
deriving Repr

/-- An executor: the single outbound dependency, with contract
`execute(operationName, document, variables) -> typed response envelope`. -/
def Executor (E : Type) : Type := GqlRequest → Except E JValue

/-- Modelled from the spec: `BaseManager.makeRequest` (base.manager.ts is
not among the sources) delegates the request to the executor and returns
its envelope or error unchanged. -/
def makeRequest {E : Type} (exec : Executor E) (req : GqlRequest) :
    Except E JValue :=
  exec req

/-- The observable outcome of one method invocation: the requests handed
to `makeRequest`, the returned value or error, and the manager object
after the call. -/
structure MethodRun (E : Type) where
  requests : List GqlRequest
  result : Except (MethodError E) JValue
  finalState : PostManager

/-- Decode the outcome of `makeRequest` through the method's field
extraction: executor errors pass through untouched, and the extraction
itself may throw. -/
def decodeResult {E : Type} (extract : JValue → Except AccessErr JValue) :
    Except E JValue → Except (MethodError E) JValue
  | .error e => .error (.execFailure e)
  | .ok env =>
      match extract env with
      | .error a => .error (.accessFailure a)
      | .ok v => .ok v

/-- The common body of every façade method: exactly one `makeRequest`
call followed by a field extraction; the manager is left untouched. -/
def runCall {E : Type} (self : PostManager) (exec : Executor E)
    (req : GqlRequest) (extract : JValue → Except AccessErr JValue) :
    MethodRun E :=
  ⟨[req], decodeResult extract (makeRequest exec req), self⟩

/-- The request built by `getPost(postId)`. -/
def getPostRequest (postId : String) : GqlRequest :=
  ⟨"getPost", .GET_POST_QUERY, .jobj [("postId", .jstr postId)]⟩

/-- The request built by `getPostPublication(postId)`. -/
def getPostPublicationRequest (postId : String) : GqlRequest :=
  ⟨"getPostPublication", .GET_POST_PUBLICATION_QUERY,
    .jobj [("postId", .jstr postId)]⟩

/-- The request built by `getPostComments(postId, first, after, sortBy)`. -/
def getPostCommentsRequest (postId : String) (first : Int) (after : String)
    (sortBy : JValue) : GqlRequest :=
  ⟨"getPostComments", .GET_POST_COMMENTS,
    .jobj [("postId", .jstr postId), ("first", .jnum first),
      ("after", .jstr after), ("sortBy", sortBy)]⟩

/-- The request built by `getPostCommenters(postId, first, after, sortBy)`. -/
def getPostCommentersRequest (postId : String) (first : Int) (after : String)
    (sortBy : JValue) : GqlRequest :=
  ⟨"getPostCommenters", .GET_POST_COMMENTERS,
    .jobj [("postId", .jstr postId), ("first", .jnum first),
      ("after", .jstr after), ("sortBy", sortBy)]⟩

/-- The request built by `getPostLikers(postId, first, after, filter)`. -/
def getPostLikersRequest (postId : String) (first : Int) (after : String)
    (filter : JValue) : GqlRequest :=
  ⟨"getPostLikers", .GET_POST_LIKERS,
    .jobj [("postId", .jstr postId), ("first", .jnum first),
      ("after", .jstr after), ("filter", filter)]⟩

/-- The request built by `getDraftPostQuery(draftID)`: the variables
object is `{ id: draftID }`. -/
def getDraftPostQueryRequest (draftID : String) : GqlRequest :=
  ⟨"getDraftPostQuery", .GET_DRAFT_POST_QUERY, .jobj [("id", .jstr draftID)]⟩

/-- The request built by `getScheduledPost(scheduledPostID)`: the
variables object is `{ id: scheduledPostID }`. -/
def getScheduledPostRequest (scheduledPostID : String) : GqlRequest :=
  ⟨"getScheduledPost", .GET_SCHEDULED_POST_QUERY,
    .jobj [("id", .jstr scheduledPostID)]⟩

/-- The request built by `getFeedPosts(first, after, filter)`. -/
def getFeedPostsRequest (first : Int) (after : String) (filter : JValue) :
    GqlRequest :=
  ⟨"getFeedPosts", .GET_FEED_POST,
    .jobj [("first", .jnum first), ("after", .jstr after),
      ("filter", filter)]⟩

/-- The request built by `publishPost(input)`. -/
def publishPostRequest (input : JValue) : GqlRequest :=
  ⟨"publishPost", .PUBLISH_POST_MUTATION, .jobj [("input", input)]⟩

/-- The request built by `addPostToSeries(input)`. -/
def addPostToSeriesRequest (input : JValue) : GqlRequest :=
  ⟨"addPostToSeries", .ADD_POST_TO_SERIES_MUTATION, .jobj [("input", input)]⟩

/-- The request built by `updatePost(input)`. -/
def updatePostRequest (input : JValue) : GqlRequest :=
  ⟨"updatePost", .UPDATE_POST_MUTATION, .jobj [("input", input)]⟩

/-- The request built by `removePost(input)`. -/
def removePostRequest (input : JValue) : GqlRequest :=
  ⟨"removePost", .REMOVE_POST_MUTATION, .jobj [("input", input)]⟩

/-- The request built by `likePost(input)`. -/
def likePostRequest (input : JValue) : GqlRequest :=
  ⟨"likePost", .LIKE_POST_MUTATION, .jobj [("input", input)]⟩

/-- The request built by `likeComment(input)`. -/
def likeCommentRequest (input : JValue) : GqlRequest :=
  ⟨"likeComment", .LIKE_COMMENT_MUTATION, .jobj [("input", input)]⟩

/-- The request built by `likeReply(input)`. -/
def likeReplyRequest (input : JValue) : GqlRequest :=
  ⟨"likeReply", .LIKE_REPLY_MUTATION, .jobj [("input", input)]⟩

/-- The request built by `addComment(input)`. -/
def addCommentRequest (input : JValue) : GqlRequest :=
  ⟨"addComment", .ADD_COMMENT_MUTATION, .jobj [("input", input)]⟩

/-- The request built by `updateComment(input)`. -/
def updateCommentRequest (input : JValue) : GqlRequest :=
  ⟨"updateComment", .UPDATE_COMMENT_MUTATION, .jobj [("input", input)]⟩

/-- The request built by `removeComment(input)`. -/
def removeCommentRequest (input : JValue) : GqlRequest :=
  ⟨"removeComment", .REMOVE_COMMENT_MUTATION, .jobj [("input", input)]⟩

/-- The request built by `addReply(input)`. -/
def addReplyRequest (input : JValue) : GqlRequest :=
  ⟨"addReply", .ADD_REPLY_MUTATION, .jobj [("input", input)]⟩

/-- The request built by `updateReply(input)`. -/
def updateReplyRequest (input : JValue) : GqlRequest :=
  ⟨"updateReply", .UPDATE_REPLY_MUTATION, .jobj [("input", input)]⟩

/-- The request built by `removeReply(input)`. -/
def removeReplyRequest (input : JValue) : GqlRequest :=
  ⟨"removeReply", .REMOVE_REPLY_MUTATION, .jobj [("input", input)]⟩

/-- `getPost(postId)`: one request, then return `res.post`. -/
def PostManager.getPost {E : Type} (self : PostManager) (exec : Executor E)
    (postId : String) : MethodRun E :=
  runCall self exec (getPostRequest postId) (fun res => res.access "post")

/-- `getPostPublication(postId)`: return `res.post.publication`. -/
def PostManager.getPostPublication {E : Type} (self : PostManager)
    (exec : Executor E) (postId : String) : MethodRun E :=
  runCall self exec (getPostPublicationRequest postId)
    (access2 "post" "publication")

/-- `getPostComments(postId, first, after, sortBy)`: return
`res.post.comments`. -/
def PostManager.getPostComments {E : Type} (self : PostManager)
    (exec : Executor E) (postId : String) (first : Int) (after : String)
    (sortBy : JValue) : MethodRun E :=
  runCall self exec (getPostCommentsRequest postId first after sortBy)
    (access2 "post" "comments")

/-- `getPostCommenters(postId, first, after, sortBy)`: return
`res.post.commenters`. -/
def PostManager.getPostCommenters {E : Type} (self : PostManager)
    (exec : Executor E) (postId : String) (first : Int) (after : String)
    (sortBy : JValue) : MethodRun E :=
  runCall self exec (getPostCommentersRequest postId first after sortBy)
    (access2 "post" "commenters")

/-- `getPostLikers(postId, first, after, filter)`: return
`res.post.likedBy`. -/
def PostManager.getPostLikers {E : Type} (self : PostManager)
    (exec : Executor E) (postId : String) (first : Int) (after : String)
    (filter : JValue) : MethodRun E :=
  runCall self exec (getPostLikersRequest postId first after filter)
    (access2 "post" "likedBy")

/-- `getDraftPostQuery(draftID)`: return `res.draft`. -/
def PostManager.getDraftPostQuery {E : Type} (self : PostManager)
    (exec : Executor E) (draftID : String) : MethodRun E :=
  runCall self exec (getDraftPostQueryRequest draftID)
    (fun res => res.access "draft")

/-- `getScheduledPost(scheduledPostID)`: return `res.post`. -/
def PostManager.getScheduledPost {E : Type} (self : PostManager)
    (exec : Executor E) (scheduledPostID : String) : MethodRun E :=
  runCall self exec (getScheduledPostRequest scheduledPostID)
    (fun res => res.access "post")

/-- `getFeedPosts(first, after, filter)`: return `res.feedPost`. -/
def PostManager.getFeedPosts {E : Type} (self : PostManager)
    (exec : Executor E) (first : Int) (after : String) (filter : JValue) :
    MethodRun E :=
  runCall self exec (getFeedPostsRequest first after filter)
    (fun res => res.access "feedPost")

/-- `publishPost(input)`: return `res.publishedpost.post`. -/
def PostManager.publishPost {E : Type} (self : PostManager)
    (exec : Executor E) (input : JValue) : MethodRun E :=
  runCall self exec (publishPostRequest input) (access2 "publishedpost" "post")

/-- `addPostToSeries(input)`: return `res.series`. -/
def PostManager.addPostToSeries {E : Type} (self : PostManager)
    (exec : Executor E) (input : JValue) : MethodRun E :=
  runCall self exec (addPostToSeriesRequest input)
    (fun res => res.access "series")

/-- `updatePost(input)`: return `res.updatedPost`. -/
def PostManager.updatePost {E : Type} (self : PostManager)
    (exec : Executor E) (input : JValue) : MethodRun E :=
  runCall self exec (updatePostRequest input)
    (fun res => res.access "updatedPost")

/-- `removePost(input)`: return `res.removedPost`. -/
def PostManager.removePost {E : Type} (self : PostManager)
    (exec : Executor E) (input : JValue) : MethodRun E :=
  runCall self exec (removePostRequest input)
    (fun res => res.access "removedPost")

/-- `likePost(input)`: return `res.likedPost`. -/
def PostManager.likePost {E : Type} (self : PostManager)
    (exec : Executor E) (input : JValue) : MethodRun E :=
  runCall self exec (likePostRequest input)
    (fun res => res.access "likedPost")

/-- `likeComment(input)`: return `res.likedComment.comment`. -/
def PostManager.likeComment {E : Type} (self : PostManager)
    (exec : Executor E) (input : JValue) : MethodRun E :=
  runCall self exec (likeCommentRequest input)
    (access2 "likedComment" "comment")

/-- `likeReply(input)`: return `res.likedReply.reply`. -/
def PostManager.likeReply {E : Type} (self : PostManager)
    (exec : Executor E) (input : JValue) : MethodRun E :=
  runCall self exec (likeReplyRequest input) (access2 "likedReply" "reply")

/-- `addComment(input)`: return `res.addedComment.comment`. -/
def PostManager.addComment {E : Type} (self : PostManager)
    (exec : Executor E) (input : JValue) : MethodRun E :=
  runCall self exec (addCommentRequest input)
    (access2 "addedComment" "comment")

/-- `updateComment(input)`: return `res.updatedComment.comment`. -/
def PostManager.updateComment {E : Type} (self : PostManager)
    (exec : Executor E) (input : JValue) : MethodRun E :=
  runCall self exec (updateCommentRequest input)
    (access2 "updatedComment" "comment")

/-- `removeComment(input)`: return `res.removedComment.comment`. -/
def PostManager.removeComment {E : Type} (self : PostManager)
    (exec : Executor E) (input : JValue) : MethodRun E :=
  runCall self exec (removeCommentRequest input)
    (access2 "removedComment" "comment")

/-- `addReply(input)`: return `res.addedReply.reply`. -/
def PostManager.addReply {E : Type} (self : PostManager)
    (exec : Executor E) (input : JValue) : MethodRun E :=
  runCall self exec (addReplyRequest input) (access2 "addedReply" "reply")

/-- `updateReply(input)`: return `res.updatedReply.reply`. -/
def PostManager.updateReply {E : Type} (self : PostManager)
    (exec : Executor E) (input : JValue) : MethodRun E :=
  runCall self exec (updateReplyRequest input) (access2 "updatedReply" "reply")

/-- `removeReply(input)`: return `res.removedReply.reply`. -/
def PostManager.removeReply {E : Type} (self : PostManager)
    (exec : Executor E) (input : JValue) : MethodRun E :=
  runCall self exec (removeReplyRequest input) (access2 "removedReply" "reply")

/-- A stub executor that resolves every request with a fixed envelope. -/
def okExec (env : JValue) : Executor Unit := fun _ => .ok env

/-- A stub executor that rejects every request with a fixed message. -/
def failExec (msg : String) : Executor String := fun _ => .error msg

/-- A concrete manager instance for closed instantiations. -/
def mgr : PostManager := PostManager.create ⟨"key"⟩

/-- A fixture envelope for closed mutation-result instantiations. -/
def mutEnv : JValue :=
  .jobj [("publishedpost", .jobj [("post", .jstr "P")]),
    ("updatedPost", .jstr "U"), ("series", .jstr "S")]

/-- A fixture envelope for closed nested-query instantiations. -/
def postEnv : JValue :=
  .jobj [("post", .jobj [("publication", .jstr "PB"),
    ("comments", .jstr "CM"), ("likedBy", .jstr "LK")])]

/-- A fixture envelope whose payload field is null. -/
def nullPayloadEnv : JValue := .jobj [("publishedpost", .jnull)]

/-- A fixture envelope with a defined payload record. -/
def goodPayloadEnv : JValue :=
  .jobj [("publishedpost", .jobj [("post", .jstr "P")])]

/-- If the executor rejects the request, the run's result is that error
wrapped as an executor failure. -/
theorem runCall_result_error {E : Type} (self : PostManager)
    (exec : Executor E) (req : GqlRequest)
    (extract : JValue → Except AccessErr JValue) (e : E)
    (h : exec req = .error e) :
    (runCall self exec req extract).result = .error (.execFailure e) := by
  simp [runCall, makeRequest, h, decodeResult]

/-- If the executor resolves the request, the run's result is the
decoding of the envelope through the extraction. -/
theorem runCall_result_ok {E : Type} (self : PostManager)
    (exec : Executor E) (req : GqlRequest)
    (extract : JValue → Except AccessErr JValue) (env : JValue)
    (h : exec req = .ok env) :
    (runCall self exec req extract).result =
      decodeResult extract (.ok env) := by
  simp [runCall, makeRequest, h]

/-- Reading a key that an object holds returns its value. -/
theorem access_found (fs : List (String × JValue)) (f : String) (v : JValue)
    (h : lookupField fs f = some v) :
    (JValue.jobj fs).access f = .ok v := by
  simp [JValue.access, h]

/-- A chained read whose first key is missing throws a TypeError on the
second key. -/
theorem access2_missing (fs : List (String × JValue)) (f g : String)
    (h : lookupField fs f = none) :
    access2 f g (.jobj fs) = .error (.typeError g) := by
  simp [access2, JValue.access, h]

/-- A chained read whose first key holds null throws a TypeError on the
second key. -/
theorem access2_null (fs : List (String × JValue)) (f g : String)
    (h : lookupField fs f = some .jnull) :
    access2 f g (.jobj fs) = .error (.typeError g) := by
  simp [access2, JValue.access, h]

/-- A chained read whose first key holds a value other than null and
undefined returns a value. -/
theorem access2_defined (fs : List (String × JValue)) (f g : String)
    (v : JValue) (h : lookupField fs f = some v) (h1 : v ≠ .jnull)
    (h2 : v ≠ .jundefined) :
    ∃ w, access2 f g (.jobj fs) = .ok w := by
  cases v with
  | jnull => exact absurd rfl h1
  | jundefined => exact absurd rfl h2
  | jbool b => exact ⟨.jundefined, by simp [access2, JValue.access, h]⟩
  | jnum n => exact ⟨.jundefined, by simp [access2, JValue.access, h]⟩
  | jstr s => exact ⟨.jundefined, by simp [access2, JValue.access, h]⟩
  | jarr xs => exact ⟨.jundefined, by simp [access2, JValue.access, h]⟩
  | jobj inner =>
      cases hl : lookupField inner g with
      | none => exact ⟨.jundefined, by simp [access2, JValue.access, h, hl]⟩
      | some w => exact ⟨w, by simp [access2, JValue.access, h, hl]⟩

/-- If the executor resolves with an object envelope, a chained read
whose first key is missing or holds null makes the run fail with an
access failure. -/
theorem twoLevel_fails {E : Type} (self : PostManager) (exec : Executor E)
    (req : GqlRequest) (f g : String) (fs : List (String × JValue))
    (hexec : exec req = .ok (.jobj fs))
    (hmiss : lookupField fs f = none ∨ lookupField fs f = some .jnull) :
    ∃ a, (runCall self exec req (access2 f g)).result =
      .error (.accessFailure a) := by
  refine ⟨.typeError g, ?_⟩
  have hacc : access2 f g (.jobj fs) = .error (.typeError g) := by
    rcases hmiss with h | h
    · exact access2_missing fs f g h
    · exact access2_null fs f g h
  rw [runCall_result_ok self exec req _ _ hexec]
  simp [decodeResult, hacc]

/-- If the executor resolves with an object envelope whose first key
holds a value other than null and undefined, a chained read returns a
value. -/
theorem twoLevel_succeeds {E : Type} (self : PostManager) (exec : Executor E)
    (req : GqlRequest) (f g : String) (fs : List (String × JValue))
    (v : JValue) (hexec : exec req = .ok (.jobj fs))
    (hv : lookupField fs f = some v) (h1 : v ≠ .jnull)
    (h2 : v ≠ .jundefined) :
    ∃ w, (runCall self exec req (access2 f g)).result = .ok w := by
  obtain ⟨w, hw⟩ := access2_defined fs f g v hv h1 h2
  refine ⟨w, ?_⟩
  rw [runCall_result_ok self exec req _ _ hexec]
  simp [decodeResult, hw]

/-- C1: for every postId and every envelope the executor resolves with,
getPost hands the executor the operation name "getPost", the fixed
document GET_POST_QUERY and the variables object with the single key
"postId" bound to postId, and returns exactly the post field of the
envelope. -/
theorem getPost_request_and_result {E : Type} (self : PostManager)
    (exec : Executor E) (postId : String) (fs : List (String × JValue))
    (v : JValue) (hexec : exec (getPostRequest postId) = .ok (.jobj fs))
    (hfield : lookupField fs "post" = some v) :
    (self.getPost exec postId).requests =
      [⟨"getPost", .GET_POST_QUERY, .jobj [("postId", .jstr postId)]⟩]
    ∧ (self.getPost exec postId).result = .ok v := by
  refine ⟨rfl, ?_⟩
  show (runCall self exec (getPostRequest postId)
    (fun res => res.access "post")).result = .ok v
  rw [runCall_result_ok self exec _ _ _ hexec]
  simp [decodeResult, access_found fs "post" v hfield]

/-- Closed instance of C1 at postId "42" and envelope with a post
field. -/
theorem getPost_request_and_result_witness :
    (mgr.getPost (okExec (.jobj [("post", .jstr "P")])) "42").requests =
      [⟨"getPost", .GET_POST_QUERY, .jobj [("postId", .jstr "42")]⟩]
    ∧ (mgr.getPost (okExec (.jobj [("post", .jstr "P")])) "42").result =
      .ok (.jstr "P") :=
  getPost_request_and_result mgr (okExec (.jobj [("post", .jstr "P")]))
    "42" [("post", .jstr "P")] (.jstr "P") rfl (by simp [lookupField])

/-- C2: every mutation method that takes an input record passes to the
executor a variables object holding exactly the key "input" bound to the
caller's record, unchanged. -/
theorem mutation_variables_unchanged {E : Type} (self : PostManager)
    (exec : Executor E) (input : JValue) :
    (self.publishPost exec input).requests =
      [⟨"publishPost", .PUBLISH_POST_MUTATION, .jobj [("input", input)]⟩]
    ∧ (self.addPostToSeries exec input).requests =
      [⟨"addPostToSeries", .ADD_POST_TO_SERIES_MUTATION,
        .jobj [("input", input)]⟩]
    ∧ (self.updatePost exec input).requests =
      [⟨"updatePost", .UPDATE_POST_MUTATION, .jobj [("input", input)]⟩]
    ∧ (self.removePost exec input).requests =
      [⟨"removePost", .REMOVE_POST_MUTATION, .jobj [("input", input)]⟩]
    ∧ (self.likePost exec input).requests =
      [⟨"likePost", .LIKE_POST_MUTATION, .jobj [("input", input)]⟩]
    ∧ (self.likeComment exec input).requests =
      [⟨"likeComment", .LIKE_COMMENT_MUTATION, .jobj [("input", input)]⟩]
    ∧ (self.likeReply exec input).requests =
      [⟨"likeReply", .LIKE_REPLY_MUTATION, .jobj [("input", input)]⟩]
    ∧ (self.addComment exec input).requests =
      [⟨"addComment", .ADD_COMMENT_MUTATION, .jobj [("input", input)]⟩]
    ∧ (self.updateComment exec input).requests =
      [⟨"updateComment", .UPDATE_COMMENT_MUTATION, .jobj [("input", input)]⟩]
    ∧ (self.removeComment exec input).requests =
      [⟨"removeComment", .REMOVE_COMMENT_MUTATION, .jobj [("input", input)]⟩]
    ∧ (self.addReply exec input).requests =
      [⟨"addReply", .ADD_REPLY_MUTATION, .jobj [("input", input)]⟩]
    ∧ (self.updateReply exec input).requests =
      [⟨"updateReply", .UPDATE_REPLY_MUTATION, .jobj [("input", input)]⟩]
    ∧ (self.removeReply exec input).requests =
      [⟨"removeReply", .REMOVE_REPLY_MUTATION, .jobj [("input", input)]⟩] :=
  ⟨rfl, rfl, rfl, rfl, rfl, rfl, rfl, rfl, rfl, rfl, rfl, rfl, rfl⟩

/-- C5 counterexample: with draftID "d", getDraftPostQuery hands the
executor the variables object under the key "id", which differs from the
object keyed by the parameter name "draftID"; likewise getScheduledPost
with scheduledPostID "sp" uses the key "id", not "scheduledPostID". -/
theorem parameter_key_counterexample :
    (mgr.getDraftPostQuery (okExec .jnull) "d").requests =
      [⟨"getDraftPostQuery", .GET_DRAFT_POST_QUERY,
        .jobj [("id", .jstr "d")]⟩]
    ∧ (JValue.jobj [("id", .jstr "d")] ≠
        JValue.jobj [("draftID", .jstr "d")])
    ∧ (mgr.getScheduledPost (okExec .jnull) "sp").requests =
      [⟨"getScheduledPost", .GET_SCHEDULED_POST_QUERY,
        .jobj [("id", .jstr "sp")]⟩]
    ∧ (JValue.jobj [("id", .jstr "sp")] ≠
        JValue.jobj [("scheduledPostID", .jstr "sp")]) := by
  refine ⟨rfl, ?_, rfl, ?_⟩ <;> simp

/-- C5 (amended): getDraftPostQuery forwards draftID unchanged as the
value of the variables key "id", and getScheduledPost forwards
scheduledPostID unchanged as the value of the variables key "id",
each together with its fixed document and operation name. -/
theorem id_key_forwarding {E : Type} (self : PostManager)
    (exec : Executor E) (draftID scheduledPostID : String) :
    (self.getDraftPostQuery exec draftID).requests =
      [⟨"getDraftPostQuery", .GET_DRAFT_POST_QUERY,
        .jobj [("id", .jstr draftID)]⟩]
    ∧ (self.getScheduledPost exec scheduledPostID).requests =
      [⟨"getScheduledPost", .GET_SCHEDULED_POST_QUERY,
        .jobj [("id", .jstr scheduledPostID)]⟩] :=
  ⟨rfl, rfl⟩

/-- C7: every method of the façade calls the executor exactly once and
leaves the manager object unchanged. -/
theorem single_call_no_state_change {E : Type} (self : PostManager)
    (exec : Executor E) (postId : String) (first : Int) (after : String)
    (sortBy filter input : JValue) (draftID scheduledPostID : String) :
    ((self.getPost exec postId).requests.length = 1
      ∧ (self.getPost exec postId).finalState = self)
    ∧ ((self.getPostPublication exec postId).requests.length = 1
      ∧ (self.getPostPublication exec postId).finalState = self)
    ∧ ((self.getPostComments exec postId first after sortBy).requests.length = 1
      ∧ (self.getPostComments exec postId first after sortBy).finalState = self)
    ∧ ((self.getPostCommenters exec postId first after sortBy).requests.length = 1
      ∧ (self.getPostCommenters exec postId first after sortBy).finalState = self)
    ∧ ((self.getPostLikers exec postId first after filter).requests.length = 1
      ∧ (self.getPostLikers exec postId first after filter).finalState = self)
    ∧ ((self.getDraftPostQuery exec draftID).requests.length = 1
      ∧ (self.getDraftPostQuery exec draftID).finalState = self)
    ∧ ((self.getScheduledPost exec scheduledPostID).requests.length = 1
      ∧ (self.getScheduledPost exec scheduledPostID).finalState = self)
    ∧ ((self.getFeedPosts exec first after filter).requests.length = 1
      ∧ (self.getFeedPosts exec first after filter).finalState = self)
    ∧ ((self.publishPost exec input).requests.length = 1
      ∧ (self.publishPost exec input).finalState = self)
    ∧ ((self.addPostToSeries exec input).requests.length = 1
      ∧ (self.addPostToSeries exec input).finalState = self)
    ∧ ((self.updatePost exec input).requests.length = 1
      ∧ (self.updatePost exec input).finalState = self)
    ∧ ((self.removePost exec input).requests.length = 1
      ∧ (self.removePost exec input).finalState = self)
    ∧ ((self.likePost exec input).requests.length = 1
      ∧ (self.likePost exec input).finalState = self)
    ∧ ((self.likeComment exec input).requests.length = 1
      ∧ (self.likeComment exec input).finalState = self)
    ∧ ((self.likeReply exec input).requests.length = 1
      ∧ (self.likeReply exec input).finalState = self)
    ∧ ((self.addComment exec input).requests.length = 1
      ∧ (self.addComment exec input).finalState = self)
    ∧ ((self.updateComment exec input).requests.length = 1
      ∧ (self.updateComment exec input).finalState = self)
    ∧ ((self.removeComment exec input).requests.length = 1
      ∧ (self.removeComment exec input).finalState = self)
    ∧ ((self.addReply exec input).requests.length = 1
      ∧ (self.addReply exec input).finalState = self)
    ∧ ((self.updateReply exec input).requests.length = 1
      ∧ (self.updateReply exec input).finalState = self)
    ∧ ((self.removeReply exec input).requests.length = 1
      ∧ (self.removeReply exec input).finalState = self) :=
  ⟨⟨rfl, rfl⟩, ⟨rfl, rfl⟩, ⟨rfl, rfl⟩, ⟨rfl, rfl⟩, ⟨rfl, rfl⟩,
   ⟨rfl, rfl⟩, ⟨rfl, rfl⟩, ⟨rfl, rfl⟩, ⟨rfl, rfl⟩, ⟨rfl, rfl⟩,
   ⟨rfl, rfl⟩, ⟨rfl, rfl⟩, ⟨rfl, rfl⟩, ⟨rfl, rfl⟩, ⟨rfl, rfl⟩,
   ⟨rfl, rfl⟩, ⟨rfl, rfl⟩, ⟨rfl, rfl⟩, ⟨rfl, rfl⟩, ⟨rfl, rfl⟩,
   ⟨rfl, rfl⟩⟩

/-- C8: the request trace of every method is a function of the method
arguments alone: two invocations with equal arguments hand the executor
equal triples, whatever the manager instance, the executor, or any prior
history. -/
theorem request_determinism {E1 E2 : Type} (self1 self2 : PostManager)
    (exec1 : Executor E1) (exec2 : Executor E2) (postId : String)
    (first : Int) (after : String) (sortBy filter input : JValue)
    (draftID scheduledPostID : String) :
    (self1.getPost exec1 postId).requests =
      (self2.getPost exec2 postId).requests
    ∧ (self1.getPostPublication exec1 postId).requests =
      (self2.getPostPublication exec2 postId).requests
    ∧ (self1.getPostComments exec1 postId first after sortBy).requests =
      (self2.getPostComments exec2 postId first after sortBy).requests
    ∧ (self1.getPostCommenters exec1 postId first after sortBy).requests =
      (self2.getPostCommenters exec2 postId first after sortBy).requests
    ∧ (self1.getPostLikers exec1 postId first after filter).requests =
      (self2.getPostLikers exec2 postId first after filter).requests
    ∧ (self1.getDraftPostQuery exec1 draftID).requests =
      (self2.getDraftPostQuery exec2 draftID).requests
    ∧ (self1.getScheduledPost exec1 scheduledPostID).requests =
      (self2.getScheduledPost exec2 scheduledPostID).requests
    ∧ (self1.getFeedPosts exec1 first after filter).requests =
      (self2.getFeedPosts exec2 first after filter).requests
    ∧ (self1.publishPost exec1 input).requests =
      (self2.publishPost exec2 input).requests
    ∧ (self1.addPostToSeries exec1 input).requests =
      (self2.addPostToSeries exec2 input).requests
    ∧ (self1.updatePost exec1 input).requests =
      (self2.updatePost exec2 input).requests
    ∧ (self1.removePost exec1 input).requests =
      (self2.removePost exec2 input).requests
    ∧ (self1.likePost exec1 input).requests =
      (self2.likePost exec2 input).requests
    ∧ (self1.likeComment exec1 input).requests =
      (self2.likeComment exec2 input).requests
    ∧ (self1.likeReply exec1 input).requests =
      (self2.likeReply exec2 input).requests
    ∧ (self1.addComment exec1 input).requests =
      (self2.addComment exec2 input).requests
    ∧ (self1.updateComment exec1 input).requests =
      (self2.updateComment exec2 input).requests
    ∧ (self1.removeComment exec1 input).requests =
      (self2.removeComment exec2 input).requests
    ∧ (self1.addReply exec1 input).requests =
      (self2.addReply exec2 input).requests
    ∧ (self1.updateReply exec1 input).requests =
      (self2.updateReply exec2 input).requests
    ∧ (self1.removeReply exec1 input).requests =
      (self2.removeReply exec2 input).requests :=
  ⟨rfl, rfl, rfl, rfl, rfl, rfl, rfl, rfl, rfl, rfl, rfl,
   rfl, rfl, rfl, rfl, rfl, rfl, rfl, rfl, rfl, rfl⟩

/-- C10: each method passes its own name as the operation name, and the
twenty-one operation names are pairwise distinct. -/
theorem operation_names_distinct {E : Type} (self : PostManager)
    (exec : Executor E) (postId : String) (first : Int) (after : String)
    (sortBy filter input : JValue) (draftID scheduledPostID : String) :
    (self.getPost exec postId).requests.map
      (fun r => r.operationName) = ["getPost"]
    ∧ (self.getPostPublication exec postId).requests.map
      (fun r => r.operationName) = ["getPostPublication"]
    ∧ (self.getPostComments exec postId first after sortBy).requests.map
      (fun r => r.operationName) = ["getPostComments"]
    ∧ (self.getPostCommenters exec postId first after sortBy).requests.map
      (fun r => r.operationName) = ["getPostCommenters"]
    ∧ (self.getPostLikers exec postId first after filter).requests.map
      (fun r => r.operationName) = ["getPostLikers"]
    ∧ (self.getDraftPostQuery exec draftID).requests.map
      (fun r => r.operationName) = ["getDraftPostQuery"]
    ∧ (self.getScheduledPost exec scheduledPostID).requests.map
      (fun r => r.operationName) = ["getScheduledPost"]
    ∧ (self.getFeedPosts exec first after filter).requests.map
      (fun r => r.operationName) = ["getFeedPosts"]
    ∧ (self.publishPost exec input).requests.map
      (fun r => r.operationName) = ["publishPost"]
    ∧ (self.addPostToSeries exec input).requests.map
      (fun r => r.operationName) = ["addPostToSeries"]
    ∧ (self.updatePost exec input).requests.map
      (fun r => r.operationName) = ["updatePost"]
    ∧ (self.removePost exec input).requests.map
      (fun r => r.operationName) = ["removePost"]
    ∧ (self.likePost exec input).requests.map
      (fun r => r.operationName) = ["likePost"]
    ∧ (self.likeComment exec input).requests.map
      (fun r => r.operationName) = ["likeComment"]
    ∧ (self.likeReply exec input).requests.map
      (fun r => r.operationName) = ["likeReply"]
    ∧ (self.addComment exec input).requests.map
      (fun r => r.operationName) = ["addComment"]
    ∧ (self.updateComment exec input).requests.map
      (fun r => r.operationName) = ["updateComment"]
    ∧ (self.removeComment exec input).requests.map
      (fun r => r.operationName) = ["removeComment"]
    ∧ (self.addReply exec input).requests.map
      (fun r => r.operationName) = ["addReply"]
    ∧ (self.updateReply exec input).requests.map
      (fun r => r.operationName) = ["updateReply"]
    ∧ (self.removeReply exec input).requests.map
      (fun r => r.operationName) = ["removeReply"]
    ∧ (["getPost", "getPostPublication", "getPostComments",
        "getPostCommenters", "getPostLikers", "getDraftPostQuery",
        "getScheduledPost", "getFeedPosts", "publishPost",
        "addPostToSeries", "updatePost", "removePost", "likePost",
        "likeComment", "likeReply", "addComment", "updateComment",
        "removeComment", "addReply", "updateReply",
        "removeReply"] : List String).Nodup := by
  refine ⟨rfl, rfl, rfl, rfl, rfl, rfl, rfl, rfl, rfl, rfl, rfl,
    rfl, rfl, rfl, rfl, rfl, rfl, rfl, rfl, rfl, rfl, ?_⟩
  decide

/-- C3: publishPost returns the nested sub-field
envelope.publishedpost.post, while updatePost returns the named field
envelope.updatedPost and addPostToSeries returns the named field
envelope.series. -/
theorem mutation_result_fields {E : Type} (self : PostManager)
    (exec : Executor E) (input : JValue) (fs : List (String × JValue)) :
    (∀ ps v, exec (publishPostRequest input) = .ok (.jobj fs) →
      lookupField fs "publishedpost" = some (.jobj ps) →
      lookupField ps "post" = some v →
      (self.publishPost exec input).result = .ok v)
    ∧ (∀ u, exec (updatePostRequest input) = .ok (.jobj fs) →
      lookupField fs "updatedPost" = some u →
      (self.updatePost exec input).result = .ok u)
    ∧ (∀ w, exec (addPostToSeriesRequest input) = .ok (.jobj fs) →
      lookupField fs "series" = some w →
      (self.addPostToSeries exec input).result = .ok w) := by
  refine ⟨?_, ?_, ?_⟩
  · intro ps v hexec hpp hpost
    show (runCall self exec (publishPostRequest input)
      (access2 "publishedpost" "post")).result = .ok v
    rw [runCall_result_ok self exec _ _ _ hexec]
    simp [decodeResult, access2, JValue.access, hpp, hpost]
  · intro u hexec hu
    show (runCall self exec (updatePostRequest input)
      (fun res => res.access "updatedPost")).result = .ok u
    rw [runCall_result_ok self exec _ _ _ hexec]
    simp [decodeResult, JValue.access, hu]
  · intro w hexec hw
    show (runCall self exec (addPostToSeriesRequest input)
      (fun res => res.access "series")).result = .ok w
    rw [runCall_result_ok self exec _ _ _ hexec]
    simp [decodeResult, JValue.access, hw]

/-- Closed instance of C3 on a fixture envelope holding all three
payload fields. -/
theorem mutation_result_fields_witness :
    (mgr.publishPost (okExec mutEnv) (.jstr "in")).result = .ok (.jstr "P")
    ∧ (mgr.updatePost (okExec mutEnv) (.jstr "in")).result = .ok (.jstr "U")
    ∧ (mgr.addPostToSeries (okExec mutEnv) (.jstr "in")).result =
      .ok (.jstr "S") := by
  have g := mutation_result_fields mgr (okExec mutEnv) (.jstr "in")
    [("publishedpost", .jobj [("post", .jstr "P")]),
     ("updatedPost", .jstr "U"), ("series", .jstr "S")]
  exact ⟨g.1 [("post", .jstr "P")] (.jstr "P") rfl (by simp [lookupField])
      (by simp [lookupField]),
    g.2.1 (.jstr "U") rfl (by simp [lookupField]),
    g.2.2 (.jstr "S") rfl (by simp [lookupField])⟩

/-- C4: each paginated or nested query method returns exactly its
designated sub-field: getPostPublication returns
envelope.post.publication, getPostComments returns
envelope.post.comments, and getPostLikers returns
envelope.post.likedBy. -/
theorem nested_query_result_fields {E : Type} (self : PostManager)
    (exec : Executor E) (postId : String) (first : Int) (after : String)
    (sortBy filter : JValue) (fs : List (String × JValue)) :
    (∀ ps v, exec (getPostPublicationRequest postId) = .ok (.jobj fs) →
      lookupField fs "post" = some (.jobj ps) →
      lookupField ps "publication" = some v →
      (self.getPostPublication exec postId).result = .ok v)
    ∧ (∀ ps v,
      exec (getPostCommentsRequest postId first after sortBy) =
        .ok (.jobj fs) →
      lookupField fs "post" = some (.jobj ps) →
      lookupField ps "comments" = some v →
      (self.getPostComments exec postId first after sortBy).result = .ok v)
    ∧ (∀ ps v,
      exec (getPostLikersRequest postId first after filter) =
        .ok (.jobj fs) →
      lookupField fs "post" = some (.jobj ps) →
      lookupField ps "likedBy" = some v →
      (self.getPostLikers exec postId first after filter).result =
        .ok v) := by
  refine ⟨?_, ?_, ?_⟩
  · intro ps v hexec hp hsub
    show (runCall self exec (getPostPublicationRequest postId)
      (access2 "post" "publication")).result = .ok v
    rw [runCall_result_ok self exec _ _ _ hexec]
    simp [decodeResult, access2, JValue.access, hp, hsub]
  · intro ps v hexec hp hsub
    show (runCall self exec (getPostCommentsRequest postId first after sortBy)
      (access2 "post" "comments")).result = .ok v
    rw [runCall_result_ok self exec _ _ _ hexec]
    simp [decodeResult, access2, JValue.access, hp, hsub]
  · intro ps v hexec hp hsub
    show (runCall self exec (getPostLikersRequest postId first after filter)
      (access2 "post" "likedBy")).result = .ok v
    rw [runCall_result_ok self exec _ _ _ hexec]
    simp [decodeResult, access2, JValue.access, hp, hsub]

/-- Closed instance of C4 on a fixture envelope whose post field holds
all three sub-fields. -/
theorem nested_query_result_fields_witness :
    (mgr.getPostPublication (okExec postEnv) "42").result = .ok (.jstr "PB")
    ∧ (mgr.getPostComments (okExec postEnv) "42" 5 "c" .jnull).result =
      .ok (.jstr "CM")
    ∧ (mgr.getPostLikers (okExec postEnv) "42" 5 "c" .jnull).result =
      .ok (.jstr "LK") := by
  have g := nested_query_result_fields mgr (okExec postEnv) "42" 5 "c"
    .jnull .jnull
    [("post", .jobj [("publication", .jstr "PB"),
      ("comments", .jstr "CM"), ("likedBy", .jstr "LK")])]
  exact ⟨g.1 [("publication", .jstr "PB"), ("comments", .jstr "CM"),
      ("likedBy", .jstr "LK")] (.jstr "PB") rfl (by simp [lookupField])
      (by simp [lookupField]),
    g.2.1 [("publication", .jstr "PB"), ("comments", .jstr "CM"),
      ("likedBy", .jstr "LK")] (.jstr "CM") rfl (by simp [lookupField])
      (by simp [lookupField]),
    g.2.2 [("publication", .jstr "PB"), ("comments", .jstr "CM"),
      ("likedBy", .jstr "LK")] (.jstr "LK") rfl (by simp [lookupField])
      (by simp [lookupField])⟩

/-- C6: whenever the executor rejects a method's request with an error
e, that method fails with exactly e, unmodified, wrapped by no local
handling; this holds for all twenty-one methods. -/
theorem executor_error_propagation {E : Type} (self : PostManager)
    (exec : Executor E) (e : E) (postId : String) (first : Int)
    (after : String) (sortBy filter input : JValue)
    (draftID scheduledPostID : String) :
    (exec (getPostRequest postId) = .error e →
      (self.getPost exec postId).result = .error (.execFailure e))
    ∧ (exec (getPostPublicationRequest postId) = .error e →
      (self.getPostPublication exec postId).result =
        .error (.execFailure e))
    ∧ (exec (getPostCommentsRequest postId first after sortBy) = .error e →
      (self.getPostComments exec postId first after sortBy).result =
        .error (.execFailure e))
    ∧ (exec (getPostCommentersRequest postId first after sortBy) =
        .error e →
      (self.getPostCommenters exec postId first after sortBy).result =
        .error (.execFailure e))
    ∧ (exec (getPostLikersRequest postId first after filter) = .error e →
      (self.getPostLikers exec postId first after filter).result =
        .error (.execFailure e))
    ∧ (exec (getDraftPostQueryRequest draftID) = .error e →
      (self.getDraftPostQuery exec draftID).result =
        .error (.execFailure e))
    ∧ (exec (getScheduledPostRequest scheduledPostID) = .error e →
      (self.getScheduledPost exec scheduledPostID).result =
        .error (.execFailure e))
    ∧ (exec (getFeedPostsRequest first after filter) = .error e →
      (self.getFeedPosts exec first after filter).result =
        .error (.execFailure e))
    ∧ (exec (publishPostRequest input) = .error e →
      (self.publishPost exec input).result = .error (.execFailure e))
    ∧ (exec (addPostToSeriesRequest input) = .error e →
      (self.addPostToSeries exec input).result = .error (.execFailure e))
    ∧ (exec (updatePostRequest input) = .error e →
      (self.updatePost exec input).result = .error (.execFailure e))
    ∧ (exec (removePostRequest input) = .error e →
      (self.removePost exec input).result = .error (.execFailure e))
    ∧ (exec (likePostRequest input) = .error e →
      (self.likePost exec input).result = .error (.execFailure e))
    ∧ (exec (likeCommentRequest input) = .error e →
      (self.likeComment exec input).result = .error (.execFailure e))
    ∧ (exec (likeReplyRequest input) = .error e →
      (self.likeReply exec input).result = .error (.execFailure e))
    ∧ (exec (addCommentRequest input) = .error e →
      (self.addComment exec input).result = .error (.execFailure e))
    ∧ (exec (updateCommentRequest input) = .error e →
      (self.updateComment exec input).result = .error (.execFailure e))
    ∧ (exec (removeCommentRequest input) = .error e →
      (self.removeComment exec input).result = .error (.execFailure e))
    ∧ (exec (addReplyRequest input) = .error e →
      (self.addReply exec input).result = .error (.execFailure e))
    ∧ (exec (updateReplyRequest input) = .error e →
      (self.updateReply exec input).result = .error (.execFailure e))
    ∧ (exec (removeReplyRequest input) = .error e →
      (self.removeReply exec input).result = .error (.execFailure e)) :=
  ⟨fun h => runCall_result_error self exec _ _ e h,
   fun h => runCall_result_error self exec _ _ e h,
   fun h => runCall_result_error self exec _ _ e h,
   fun h => runCall_result_error self exec _ _ e h,
   fun h => runCall_result_error self exec _ _ e h,
   fun h => runCall_result_error self exec _ _ e h,
   fun h => runCall_result_error self exec _ _ e h,
   fun h => runCall_result_error self exec _ _ e h,
   fun h => runCall_result_error self exec _ _ e h,
   fun h => runCall_result_error self exec _ _ e h,
   fun h => runCall_result_error self exec _ _ e h,
   fun h => runCall_result_error self exec _ _ e h,
   fun h => runCall_result_error self exec _ _ e h,
   fun h => runCall_result_error self exec _ _ e h,
   fun h => runCall_result_error self exec _ _ e h,
   fun h => runCall_result_error self exec _ _ e h,
   fun h => runCall_result_error self exec _ _ e h,
   fun h => runCall_result_error self exec _ _ e h,
   fun h => runCall_result_error self exec _ _ e h,
   fun h => runCall_result_error self exec _ _ e h,
   fun h => runCall_result_error self exec _ _ e h⟩

/-- Closed instance of C6 with an executor rejecting every request with
the message "boom". -/
theorem executor_error_propagation_witness :
    (mgr.getPost (failExec "boom") "p").result =
      .error (.execFailure "boom")
    ∧ (mgr.getPostPublication (failExec "boom") "p").result =
      .error (.execFailure "boom")
    ∧ (mgr.getPostComments (failExec "boom") "p" 1 "a" .jnull).result =
      .error (.execFailure "boom")
    ∧ (mgr.getPostCommenters (failExec "boom") "p" 1 "a" .jnull).result =
      .error (.execFailure "boom")
    ∧ (mgr.getPostLikers (failExec "boom") "p" 1 "a" .jnull).result =
      .error (.execFailure "boom")
    ∧ (mgr.getDraftPostQuery (failExec "boom") "d").result =
      .error (.execFailure "boom")
    ∧ (mgr.getScheduledPost (failExec "boom") "s").result =
      .error (.execFailure "boom")
    ∧ (mgr.getFeedPosts (failExec "boom") 1 "a" .jnull).result =
      .error (.execFailure "boom")
    ∧ (mgr.publishPost (failExec "boom") .jnull).result =
      .error (.execFailure "boom")
    ∧ (mgr.addPostToSeries (failExec "boom") .jnull).result =
      .error (.execFailure "boom")
    ∧ (mgr.updatePost (failExec "boom") .jnull).result =
      .error (.execFailure "boom")
    ∧ (mgr.removePost (failExec "boom") .jnull).result =
      .error (.execFailure "boom")
    ∧ (mgr.likePost (failExec "boom") .jnull).result =
      .error (.execFailure "boom")
    ∧ (mgr.likeComment (failExec "boom") .jnull).result =
      .error (.execFailure "boom")
    ∧ (mgr.likeReply (failExec "boom") .jnull).result =
      .error (.execFailure "boom")
    ∧ (mgr.addComment (failExec "boom") .jnull).result =
      .error (.execFailure "boom")
    ∧ (mgr.updateComment (failExec "boom") .jnull).result =
      .error (.execFailure "boom")
    ∧ (mgr.removeComment (failExec "boom") .jnull).result =
      .error (.execFailure "boom")
    ∧ (mgr.addReply (failExec "boom") .jnull).result =
      .error (.execFailure "boom")
    ∧ (mgr.updateReply (failExec "boom") .jnull).result =
      .error (.execFailure "boom")
    ∧ (mgr.removeReply (failExec "boom") .jnull).result =
      .error (.execFailure "boom") := by
  obtain ⟨h1, h2, h3, h4, h5, h6, h7, h8, h9, h10, h11, h12, h13, h14,
    h15, h16, h17, h18, h19, h20, h21⟩ :=
    executor_error_propagation mgr (failExec "boom") "boom" "p" 1 "a"
      .jnull .jnull .jnull "d" "s"
  exact ⟨h1 rfl, h2 rfl, h3 rfl, h4 rfl, h5 rfl, h6 rfl, h7 rfl, h8 rfl,
    h9 rfl, h10 rfl, h11 rfl, h12 rfl, h13 rfl, h14 rfl, h15 rfl,
    h16 rfl, h17 rfl, h18 rfl, h19 rfl, h20 rfl, h21 rfl⟩

/-- C9: field extraction is partial for every method that unwraps a
nested sub-field: when the executor resolves with an object envelope
whose named top-level field is absent or null, the method fails locally
with a property-access error; when that field holds a value other than
null and undefined, the error branch is unreachable and the method
returns a value. -/
theorem nested_extraction_partiality {E : Type} (self : PostManager)
    (exec : Executor E) (postId : String) (first : Int) (after : String)
    (sortBy filter input : JValue) :
    (∀ fs, exec (getPostPublicationRequest postId) = .ok (.jobj fs) →
      ((lookupField fs "post" = none ∨ lookupField fs "post" = some .jnull) →
        ∃ a, (self.getPostPublication exec postId).result =
          .error (.accessFailure a))
      ∧ (∀ v, lookupField fs "post" = some v → v ≠ .jnull →
        v ≠ .jundefined →
        ∃ w, (self.getPostPublication exec postId).result = .ok w))
    ∧ (∀ fs, exec (getPostCommentsRequest postId first after sortBy) =
        .ok (.jobj fs) →
      ((lookupField fs "post" = none ∨ lookupField fs "post" = some .jnull) →
        ∃ a, (self.getPostComments exec postId first after sortBy).result =
          .error (.accessFailure a))
      ∧ (∀ v, lookupField fs "post" = some v → v ≠ .jnull →
        v ≠ .jundefined →
        ∃ w, (self.getPostComments exec postId first after sortBy).result =
          .ok w))
    ∧ (∀ fs, exec (getPostCommentersRequest postId first after sortBy) =
        .ok (.jobj fs) →
      ((lookupField fs "post" = none ∨ lookupField fs "post" = some .jnull) →
        ∃ a, (self.getPostCommenters exec postId first after sortBy).result =
          .error (.accessFailure a))
      ∧ (∀ v, lookupField fs "post" = some v → v ≠ .jnull →
        v ≠ .jundefined →
        ∃ w, (self.getPostCommenters exec postId first after sortBy).result =
          .ok w))
    ∧ (∀ fs, exec (getPostLikersRequest postId first after filter) =
        .ok (.jobj fs) →
      ((lookupField fs "post" = none ∨ lookupField fs "post" = some .jnull) →
        ∃ a, (self.getPostLikers exec postId first after filter).result =
          .error (.accessFailure a))
      ∧ (∀ v, lookupField fs "post" = some v → v ≠ .jnull →
        v ≠ .jundefined →
        ∃ w, (self.getPostLikers exec postId first after filter).result =
          .ok w))
    ∧ (∀ fs, exec (publishPostRequest input) = .ok (.jobj fs) →
      ((lookupField fs "publishedpost" = none
          ∨ lookupField fs "publishedpost" = some .jnull) →
        ∃ a, (self.publishPost exec input).result =
          .error (.accessFailure a))
      ∧ (∀ v, lookupField fs "publishedpost" = some v → v ≠ .jnull →
        v ≠ .jundefined →
        ∃ w, (self.publishPost exec input).result = .ok w))
    ∧ (∀ fs, exec (likeCommentRequest input) = .ok (.jobj fs) →
      ((lookupField fs "likedComment" = none
          ∨ lookupField fs "likedComment" = some .jnull) →
        ∃ a, (self.likeComment exec input).result =
          .error (.accessFailure a))
      ∧ (∀ v, lookupField fs "likedComment" = some v → v ≠ .jnull →
        v ≠ .jundefined →
        ∃ w, (self.likeComment exec input).result = .ok w))
    ∧ (∀ fs, exec (likeReplyRequest input) = .ok (.jobj fs) →
      ((lookupField fs "likedReply" = none
          ∨ lookupField fs "likedReply" = some .jnull) →
        ∃ a, (self.likeReply exec input).result =
          .error (.accessFailure a))
      ∧ (∀ v, lookupField fs "likedReply" = some v → v ≠ .jnull →
        v ≠ .jundefined →
        ∃ w, (self.likeReply exec input).result = .ok w))
    ∧ (∀ fs, exec (addCommentRequest input) = .ok (.jobj fs) →
      ((lookupField fs "addedComment" = none
          ∨ lookupField fs "addedComment" = some .jnull) →
        ∃ a, (self.addComment exec input).result =
          .error (.accessFailure a))
      ∧ (∀ v, lookupField fs "addedComment" = some v → v ≠ .jnull →
        v ≠ .jundefined →
        ∃ w, (self.addComment exec input).result = .ok w))
    ∧ (∀ fs, exec (updateCommentRequest input) = .ok (.jobj fs) →
      ((lookupField fs "updatedComment" = none
          ∨ lookupField fs "updatedComment" = some .jnull) →
        ∃ a, (self.updateComment exec input).result =
          .error (.accessFailure a))
      ∧ (∀ v, lookupField fs "updatedComment" = some v → v ≠ .jnull →
        v ≠ .jundefined →
        ∃ w, (self.updateComment exec input).result = .ok w))
    ∧ (∀ fs, exec (removeCommentRequest input) = .ok (.jobj fs) →
      ((lookupField fs "removedComment" = none
          ∨ lookupField fs "removedComment" = some .jnull) →
        ∃ a, (self.removeComment exec input).result =
          .error (.accessFailure a))
      ∧ (∀ v, lookupField fs "removedComment" = some v → v ≠ .jnull →
        v ≠ .jundefined →
        ∃ w, (self.removeComment exec input).result = .ok w))
    ∧ (∀ fs, exec (addReplyRequest input) = .ok (.jobj fs) →
      ((lookupField fs "addedReply" = none
          ∨ lookupField fs "addedReply" = some .jnull) →
        ∃ a, (self.addReply exec input).result =
          .error (.accessFailure a))
      ∧ (∀ v, lookupField fs "addedReply" = some v → v ≠ .jnull →
        v ≠ .jundefined →
        ∃ w, (self.addReply exec input).result = .ok w))
    ∧ (∀ fs, exec (updateReplyRequest input) = .ok (.jobj fs) →
      ((lookupField fs "updatedReply" = none
          ∨ lookupField fs "updatedReply" = some .jnull) →
        ∃ a, (self.updateReply exec input).result =
          .error (.accessFailure a))
      ∧ (∀ v, lookupField fs "updatedReply" = some v → v ≠ .jnull →
        v ≠ .jundefined →
        ∃ w, (self.updateReply exec input).result = .ok w))
    ∧ (∀ fs, exec (removeReplyRequest input) = .ok (.jobj fs) →
      ((lookupField fs "removedReply" = none
          ∨ lookupField fs "removedReply" = some .jnull) →
        ∃ a, (self.removeReply exec input).result =
          .error (.accessFailure a))
      ∧ (∀ v, lookupField fs "removedReply" = some v → v ≠ .jnull →
        v ≠ .jundefined →
        ∃ w, (self.removeReply exec input).result = .ok w)) :=
  ⟨fun fs hexec =>
    ⟨fun hm => twoLevel_fails self exec _ "post" "publication" fs hexec hm,
     fun v hv h1 h2 =>
       twoLevel_succeeds self exec _ "post" "publication" fs v hexec hv h1 h2⟩,
   fun fs hexec =>
    ⟨fun hm => twoLevel_fails self exec _ "post" "comments" fs hexec hm,
     fun v hv h1 h2 =>
       twoLevel_succeeds self exec _ "post" "comments" fs v hexec hv h1 h2⟩,
   fun fs hexec =>
    ⟨fun hm => twoLevel_fails self exec _ "post" "commenters" fs hexec hm,
     fun v hv h1 h2 =>
       twoLevel_succeeds self exec _ "post" "commenters" fs v hexec hv h1 h2⟩,
   fun fs hexec =>
    ⟨fun hm => twoLevel_fails self exec _ "post" "likedBy" fs hexec hm,
     fun v hv h1 h2 =>
       twoLevel_succeeds self exec _ "post" "likedBy" fs v hexec hv h1 h2⟩,
   fun fs hexec =>
    ⟨fun hm =>
       twoLevel_fails self exec _ "publishedpost" "post" fs hexec hm,
     fun v hv h1 h2 =>
       twoLevel_succeeds self exec _ "publishedpost" "post" fs v hexec hv
         h1 h2⟩,
   fun fs hexec =>
    ⟨fun hm =>
       twoLevel_fails self exec _ "likedComment" "comment" fs hexec hm,
     fun v hv h1 h2 =>
       twoLevel_succeeds self exec _ "likedComment" "comment" fs v hexec hv
         h1 h2⟩,
   fun fs hexec =>
    ⟨fun hm => twoLevel_fails self exec _ "likedReply" "reply" fs hexec hm,
     fun v hv h1 h2 =>
       twoLevel_succeeds self exec _ "likedReply" "reply" fs v hexec hv
         h1 h2⟩,
   fun fs hexec =>
    ⟨fun hm =>
       twoLevel_fails self exec _ "addedComment" "comment" fs hexec hm,
     fun v hv h1 h2 =>
       twoLevel_succeeds self exec _ "addedComment" "comment" fs v hexec hv
         h1 h2⟩,
   fun fs hexec =>
    ⟨fun hm =>
       twoLevel_fails self exec _ "updatedComment" "comment" fs hexec hm,
     fun v hv h1 h2 =>
       twoLevel_succeeds self exec _ "updatedComment" "comment" fs v hexec
         hv h1 h2⟩,
   fun fs hexec =>
    ⟨fun hm =>
       twoLevel_fails self exec _ "removedComment" "comment" fs hexec hm,
     fun v hv h1 h2 =>
       twoLevel_succeeds self exec _ "removedComment" "comment" fs v hexec
         hv h1 h2⟩,
   fun fs hexec =>
    ⟨fun hm => twoLevel_fails self exec _ "addedReply" "reply" fs hexec hm,
     fun v hv h1 h2 =>
       twoLevel_succeeds self exec _ "addedReply" "reply" fs v hexec hv
         h1 h2⟩,
   fun fs hexec =>
    ⟨fun hm =>
       twoLevel_fails self exec _ "updatedReply" "reply" fs hexec hm,
     fun v hv h1 h2 =>
       twoLevel_succeeds self exec _ "updatedReply" "reply" fs v hexec hv
         h1 h2⟩,
   fun fs hexec =>
    ⟨fun hm =>
       twoLevel_fails self exec _ "removedReply" "reply" fs hexec hm,
     fun v hv h1 h2 =>
       twoLevel_succeeds self exec _ "removedReply" "reply" fs v hexec hv
         h1 h2⟩⟩

/-- Closed instance of C9: publishPost fails with an access error on an
envelope whose payload field is null, and returns a value on an envelope
whose payload field holds a record. -/
theorem nested_extraction_partiality_witness :
    (∃ a, (mgr.publishPost (okExec nullPayloadEnv) .jnull).result =
      .error (.accessFailure a))
    ∧ (∃ w, (mgr.publishPost (okExec goodPayloadEnv) .jnull).result =
      .ok w) := by
  obtain ⟨_, _, _, _, hbad, _⟩ :=
    nested_extraction_partiality mgr (okExec nullPayloadEnv) "p" 1 "a"
      .jnull .jnull .jnull
  obtain ⟨_, _, _, _, hgood, _⟩ :=
    nested_extraction_partiality mgr (okExec goodPayloadEnv) "p" 1 "a"
      .jnull .jnull .jnull
  refine ⟨(hbad [("publishedpost", .jnull)] rfl).1 ?_,
    (hgood [("publishedpost", .jobj [("post", .jstr "P")])] rfl).2
      (.jobj [("post", .jstr "P")]) ?_ ?_ ?_⟩
  · exact Or.inr (by simp [lookupField])
  · simp [lookupField]
  · simp
  · simp
